import Mathlib

/-!
Shallow embedding of `lib/ansible/modules/monitoring/zabbix/zabbix_action.py`.

Python values are modelled by the inductive type `Value`; Python dictionaries
are association lists in insertion order (as in Python 3.7+), with unique keys
maintained by the assignment operation `dictSet`.  Python `==` on values is
modelled by `Value.beq`, whose dictionary case is order-insensitive (length
check plus per-key lookup), exactly as CPython compares dicts.  Remote API
calls of the `zabbix_api` client are modelled as oracle parameters: an
`Option String` that is `none` when the call succeeds and `some e` when it
raises an exception whose text is `e`.  The module reporting surface
(`exit_json` / `fail_json` / an uncaught exception escaping the handler) is
the type `Outcome`, and the mutating requests issued to the remote client are
collected in a `List RemoteCall`.
-/

/-- A Python value as used by this module: strings, integers, lists and
string-keyed dictionaries (other value kinds do not occur in the data flow
of `zabbix_action.py`). -/
inductive Value where
  | str : String → Value
  | int : Int → Value
  | list : List Value → Value
  | dict : List (String × Value) → Value

/-- A Python dictionary with string keys, in insertion order. -/
abbrev Dict := List (String × Value)

/-- Size bound for values found by keyed lookup, used for termination of the
Python equality function below. -/
theorem lookup_sizeOf_lt :
    ∀ (d : Dict) (k : String) (w : Value), d.lookup k = some w → sizeOf w < sizeOf d := by
  intro d k w h
  induction d with
  | nil => simp [List.lookup] at h
  | cons kv tl ih =>
    obtain ⟨k1, v1⟩ := kv
    rw [List.lookup] at h
    by_cases hk : (k == k1) = true
    · simp [hk] at h
      subst h
      simp
      omega
    · simp [hk] at h
      have := ih h
      simp
      omega

mutual
/-- Python `==` on values.  Strings and integers compare by value, lists
elementwise in order, and dictionaries by length plus per-key lookup
(order-insensitive), as CPython does.  Values of different kinds are unequal
(Python `"5" == 5` is `False`). -/
def Value.beq : Value → Value → Bool
  | .str a, .str b => a == b
  | .int a, .int b => a == b
  | .list [], .list [] => true
  | .list (a :: as), .list (b :: bs) => Value.beq a b && Value.beq (.list as) (.list bs)
  | .dict a, .dict b => (a.length == b.length) && Value.beqDictAux a b
  | _, _ => false
termination_by v w => sizeOf v + sizeOf w

/-- Helper of `Value.beq`: every key of the first dictionary must be present
in the second with a `Value.beq`-equal value. -/
def Value.beqDictAux : Dict → Dict → Bool
  | [], _ => true
  | (k, v) :: tl, b =>
    (match h : b.lookup k with
     | some w => Value.beq v w
     | none => false) && Value.beqDictAux tl b
termination_by a b => sizeOf a + sizeOf b
decreasing_by
all_goals simp
all_goals first
  | omega
  | (have hlt := lookup_sizeOf_lt b k w h; omega)
end

mutual
/-- Python `repr` of a value (`'…'`-quoted strings; element reprs joined by
`", "` inside brackets or braces).  Escape-free strings are assumed, as in
all data handled by this module. -/
def Value.pyrepr : Value → String
  | .str s => "\x27" ++ s ++ "\x27"
  | .int n => toString n
  | .list l => "[" ++ Value.pyreprList l ++ "]"
  | .dict d => "\x7b" ++ Value.pyreprDict d ++ "\x7d"
termination_by v => sizeOf v

/-- Comma-joined reprs of list elements. -/
def Value.pyreprList : List Value → String
  | [] => ""
  | [v] => Value.pyrepr v
  | v :: tl => Value.pyrepr v ++ ", " ++ Value.pyreprList tl
termination_by l => sizeOf l

/-- Comma-joined `key: value` reprs of dictionary entries. -/
def Value.pyreprDict : Dict → String
  | [] => ""
  | [(k, v)] => "\x27" ++ k ++ "\x27: " ++ Value.pyrepr v
  | (k, v) :: tl => "\x27" ++ k ++ "\x27: " ++ Value.pyrepr v ++ ", " ++ Value.pyreprDict tl
termination_by d => sizeOf d
end

/-- Python `str` of a value: the string itself for strings, `repr`-style
rendering for everything else. -/
def Value.pystr : Value → String
  | .str s => s
  | v => Value.pyrepr v

/-- Python truthiness of a value: empty strings, zero, empty lists and empty
dictionaries are falsy. -/
def pyTruthy : Value → Bool
  | .str s => !(s == "")
  | .int n => !(n == 0)
  | .list l => !l.isEmpty
  | .dict d => !d.isEmpty

/-- Python dictionary assignment `d[k] = v`: replace the value in place when
the key is present (keys keep their position), otherwise append the new entry
at the end. -/
def dictSet (d : Dict) (k : String) (v : Value) : Dict :=
  if (d.lookup k).isSome then
    d.map (fun kv => if kv.1 == k then (k, v) else kv)
  else
    d ++ [(k, v)]

/-- Python `d.pop(k)` on a dictionary whose keys are unique: drop the entry
with key `k`. -/
def dictPop (d : Dict) (k : String) : Dict :=
  d.filter (fun kv => !(kv.1 == k))

/-- A mutating request issued to the remote Zabbix client
(`zapi.action.create` / `zapi.action.update` / `zapi.action.delete`).  The
read-only `zapi.action.get` lookup is not recorded. -/
inductive RemoteCall where
  | create : Dict → RemoteCall
  | update : Dict → RemoteCall
  | delete : List Value → RemoteCall

/-- How an invocation of the module terminates: a clean `exit_json` (with the
`changed` flag and the optional `result` message), a `fail_json` fatal
failure, or a crash by an exception that escapes the handler (for example a
`KeyError` raised inside an `except` block). -/
inductive Outcome where
  | exitOk : Bool → Option String → Outcome
  | fail : String → Outcome
  | crash : String → Outcome
deriving DecidableEq

/-- The `changed` flag reported by a clean exit, if any. -/
def Outcome.changedFlag : Outcome → Option Bool
  | .exitOk b _ => some b
  | _ => none

/-- Text of the `KeyError` that escapes the `except` handler of
`update_action` when `data` has no key `host`. -/
def keyErrorHost : String := "KeyError: \x27host\x27"

/-- Text of the `KeyError` that escapes when `data` has no key `name` in
`add_action` message building. -/
def keyErrorName : String := "KeyError: \x27name\x27"

/-- Python `str` of `KeyError('status')`, as interpolated into a `fail_json`
message by an `except` handler. -/
def keyErrorStatusStr : String := "\x27status\x27"

/-- Python `str` of the `TypeError` raised by `item in None` when
`existing_data` was never set. -/
def noneTypeErrStr : String := "argument of type \x27NoneType\x27 is not iterable"

/-- `Action.action_exists`: the remote lookup result (a list of entity
records) is inspected; when it is non-empty and its first record carries the
key `actionid`, that record becomes `existing_data` and its `actionid` value
is returned.  Otherwise the raw result list itself is returned and
`existing_data` stays `None` (modelled as `none`).  The returned pair is
(returned value, `existing_data`). -/
def action_exists (result : List Dict) : Value × Option Dict :=
  match result with
  | [] => (Value.list [], none)
  | r :: rs =>
    match r.lookup "actionid" with
    | some idv => (idv, some r)
    | none => (Value.list ((r :: rs).map Value.dict), none)

/-- The `fail_json` call of `update_action`'s `except` handler: its message
interpolates `data['host']`, so when `data` has no key `host` the handler
itself raises a `KeyError` that escapes (`Outcome.crash`). -/
def update_fail (data : Dict) (e : String) : Outcome :=
  match data.lookup "host" with
  | some h => Outcome.fail ("Failed to update action " ++ Value.pystr h ++ ": " ++ e)
  | none => Outcome.crash keyErrorHost

/-- `Action.add_action`: in check mode exit immediately with `changed=True`;
otherwise build the create payload from the truthy entries of `data`, issue
`zapi.action.create`, and report success (or fail with the entity name and
the error text).  `createRaises` is the remote-call oracle.  Note that the
success message interpolates `data['name']` and `data['status']`, raising a
`KeyError` (caught, then re-raised as `KeyError: name` in the handler) when
those keys are missing. -/
def add_action (check_mode : Bool) (createRaises : Option String) (data : Dict) :
    Outcome × List RemoteCall :=
  if check_mode then (Outcome.exitOk true none, []) else
  let parameters := data.foldl (fun ps kv => if pyTruthy kv.2 then dictSet ps kv.1 kv.2 else ps) []
  match createRaises with
  | some e =>
    match data.lookup "name" with
    | some nm => (Outcome.fail ("Failed to create action " ++ Value.pystr nm ++ ": " ++ e),
                  [RemoteCall.create parameters])
    | none => (Outcome.crash keyErrorName, [RemoteCall.create parameters])
  | none =>
    match data.lookup "name" with
    | none => (Outcome.crash keyErrorName, [RemoteCall.create parameters])
    | some nm =>
      match data.lookup "status" with
      | some st =>
        (Outcome.exitOk true (some ("Successfully added action " ++ Value.pystr nm ++
           " (" ++ Value.pystr st ++ ")")), [RemoteCall.create parameters])
      | none =>
        (Outcome.fail ("Failed to create action " ++ Value.pystr nm ++ ": " ++ keyErrorStatusStr),
         [RemoteCall.create parameters])

/-- `Action.delete_action`: in check mode exit immediately with
`changed=True`; otherwise issue `zapi.action.delete([action_id])` and report
success, or fail with the entity name and error text when the remote call
raises (`deleteRaises` is the remote-call oracle). -/
def delete_action (check_mode : Bool) (deleteRaises : Option String)
    (action_id : Value) (action_name : String) : Outcome × List RemoteCall :=
  if check_mode then (Outcome.exitOk true none, []) else
  match deleteRaises with
  | some e =>
    (Outcome.fail ("Failed to delete action " ++ action_name ++ ": " ++ e),
     [RemoteCall.delete [action_id]])
  | none =>
    (Outcome.exitOk true (some ("Successfully deleted action " ++ action_name)),
     [RemoteCall.delete [action_id]])

/-- `Action.compile_interface_params`: start from the existing record's
`interface` entry when it is present and non-empty (the source reads
`self.existing_data['interface']`; a value that is not a dictionary would
make the Python code raise, and is folded to the empty dictionary here —
every theorem touching this branch assumes a dictionary-valued `interface`),
overlay every entry of `new_interface`, coerce all values to their string
representation, and return the result — or the empty dictionary when it
equals the untouched existing interface. -/
def compile_interface_params (existing_data : Dict) (new_interface : Dict) : Dict :=
  let old_interface : Dict :=
    match existing_data.lookup "interface" with
    | some (Value.dict d) => if 0 < d.length then d else []
    | _ => []
  let merged := new_interface.foldl (fun fi kv => dictSet fi kv.1 kv.2) old_interface
  let final_interface := merged.map (fun kv => (kv.1, Value.str (Value.pystr kv.2)))
  if Value.beq (Value.dict final_interface) (Value.dict old_interface) then []
  else final_interface

/-- The generic field diff of `Action.update_action`: starting from
`{'actionid': action_id}`, add every entry of `data` whose value is truthy,
whose key is present in the existing record, and whose value differs (Python
`!=`) from the existing one. -/
def update_diff (existing : Dict) (action_id : Value) (data : Dict) : Dict :=
  data.foldl
    (fun ps kv =>
      if pyTruthy kv.2 then
        match existing.lookup kv.1 with
        | some w => if Value.beq w kv.2 then ps else dictSet ps kv.1 kv.2
        | none => ps
      else ps)
    [("actionid", action_id)]

/-- The full update payload of `Action.update_action`: the generic diff with
any `interface` entry popped, then — when `data` carries `interface` and
`data['status'] == '6'` — the non-empty interface merge added back under
`interface`.  The result is `none` when the payload computation itself
raises: `data['status']` on a `data` without `status` (`KeyError`), or an
`interface` value that is not a dictionary. -/
def update_parameters (existing : Dict) (action_id : Value) (data : Dict) : Option Dict :=
  let ps0 := update_diff existing action_id data
  let ps := if (ps0.lookup "interface").isSome then dictPop ps0 "interface" else ps0
  match data.lookup "interface" with
  | none => some ps
  | some iv =>
    match data.lookup "status" with
    | none => none
    | some st =>
      if Value.beq st (Value.str "6") then
        match iv with
        | Value.dict ni =>
          let new_interface := compile_interface_params existing ni
          if 0 < new_interface.length then
            some (dictSet ps "interface" (Value.dict new_interface))
          else some ps
        | _ => none
      else some ps

/-- `Action.update_action`: in check mode exit immediately with
`changed=True`.  Otherwise compute the payload; when it has a key besides
`actionid`, issue `zapi.action.update` (oracle `updateRaises`) and then build
the success message — which interpolates `data['host']` and therefore raises
a `KeyError` when that key is missing; the `except` handler interpolates
`data['host']` again, so the `KeyError` escapes (`Outcome.crash`).  When the
payload is only `actionid`, exit with `changed=False` and no remote call.
When `existing_data` is `None` (`none`), the membership test `item in None`
raises a `TypeError` at the first truthy entry of `data`, handled by the same
`except` block. -/
def update_action (check_mode : Bool) (updateRaises : Option String)
    (existing_data : Option Dict) (action_id : Value) (data : Dict) :
    Outcome × List RemoteCall :=
  if check_mode then (Outcome.exitOk true none, []) else
  match existing_data with
  | none =>
    if data.any (fun kv => pyTruthy kv.2) then (update_fail data noneTypeErrStr, [])
    else
      match data.lookup "interface" with
      | none => (Outcome.exitOk false none, [])
      | some _ =>
        match data.lookup "status" with
        | none => (update_fail data keyErrorStatusStr, [])
        | some st =>
          if Value.beq st (Value.str "6") then (update_fail data noneTypeErrStr, [])
          else (Outcome.exitOk false none, [])
  | some existing =>
    match update_parameters existing action_id data with
    | none => (update_fail data keyErrorStatusStr, [])
    | some parameters =>
      if 1 < parameters.length then
        match updateRaises with
        | some e => (update_fail data e, [RemoteCall.update parameters])
        | none =>
          match data.lookup "host" with
          | some h =>
            (Outcome.exitOk true (some ("Successfully updated action " ++ Value.pystr h ++
               " (" ++ Value.pystr action_id ++ ")")), [RemoteCall.update parameters])
          | none => (Outcome.crash keyErrorHost, [RemoteCall.update parameters])
      else (Outcome.exitOk false none, [])

/-- The caller-supplied module parameters that feed the reconciliation
dispatch of `main` (after login, which is outside this model). -/
structure Params where
  action_name : String
  status : String
  state : String
  esc_period : String
  eventsource : Int
  operations : List Value

/-- The status mapping of `main`: `6 if status == "passive" else 5`. -/
def statusCode (status : String) : Int :=
  if status == "passive" then 6 else 5

/-- The desired-state dictionary that `main` passes to `update_action` and
`add_action`: `name`, `str(status)`, `str(esc_period)`, `int(eventsource)`,
`operations`. -/
def mainData (p : Params) : Dict :=
  [("name", Value.str p.action_name),
   ("status", Value.str (toString (statusCode p.status))),
   ("esc_period", Value.str p.esc_period),
   ("eventsource", Value.int p.eventsource),
   ("operations", Value.list p.operations)]

/-- The dispatch of `main` after login: look the action up by name
(`getResult` is the remote lookup result), then branch on the truthiness of
the value returned by `action_exists` and on the desired `state`. -/
def main_dispatch (check_mode : Bool) (getResult : List Dict)
    (createRaises updateRaises deleteRaises : Option String) (p : Params) :
    Outcome × List RemoteCall :=
  let found := action_exists getResult
  if pyTruthy found.1 then
    if p.state == "absent" then
      delete_action check_mode deleteRaises found.1 p.action_name
    else
      update_action check_mode updateRaises found.2 found.1 (mainData p)
  else
    if p.state == "absent" then (Outcome.exitOk false none, [])
    else add_action check_mode createRaises (mainData p)

/-- A keyed lookup misses exactly when the key is absent. -/
theorem lookup_eq_none_iff (d : Dict) (k : String) :
    d.lookup k = none ↔ k ∉ d.map Prod.fst := by
  induction d with
  | nil => simp [List.lookup]
  | cons kv tl ih =>
    obtain ⟨k1, v1⟩ := kv
    rw [List.lookup]
    by_cases hk : k = k1
    · subst hk
      simp
    · have hk' : (k == k1) = false := by simpa using hk
      simp [hk', ih, hk]

/-- Keyed lookup distributes over append, first list winning. -/
theorem lookup_append (a b : Dict) (k : String) :
    (a ++ b).lookup k =
      match a.lookup k with
      | some v => some v
      | none => b.lookup k := by
  induction a with
  | nil => simp [List.lookup]
  | cons kv tl ih =>
    obtain ⟨k1, v1⟩ := kv
    rw [List.cons_append, List.lookup, List.lookup]
    cases hk : (k == k1) with
    | true => simp
    | false => simp [ih]

/-- Assigning an absent key appends the entry. -/
theorem dictSet_of_lookup_none (d : Dict) (k : String) (v : Value)
    (h : d.lookup k = none) : dictSet d k v = d ++ [(k, v)] := by
  simp [dictSet, h]


/-- Replacing the entry of key `k` in place rewrites the value found under
`k` and nothing else (keys and positions are untouched). -/
theorem lookup_replaceAll (d : Dict) (k : String) (v : Value) (k' : String) :
    (d.map (fun kv => if kv.1 == k then (k, v) else kv)).lookup k' =
      Option.map (fun w => if k' == k then v else w) (d.lookup k') := by
  induction d with
  | nil => simp [List.lookup]
  | cons kv tl ih =>
    obtain ⟨k1, v1⟩ := kv
    simp only [List.map_cons]
    by_cases h1 : k1 = k
    · subst h1
      simp only [beq_self_eq_true, if_true]
      rw [List.lookup, List.lookup]
      by_cases h2 : k' = k1
      · subst h2
        simp
      · have h2' : (k' == k1) = false := by simpa using h2
        rw [ih]
        all_goals simp [h2']
    · have h1' : (k1 == k) = false := by simpa using h1
      simp only [h1', Bool.false_eq_true, if_false]
      rw [List.lookup, List.lookup]
      by_cases h2 : k' = k1
      · subst h2
        have h2' : (k' == k) = false := by simpa using h1
        simp [h2']
      · have h2' : (k' == k1) = false := by simpa using h2
        rw [ih]
        all_goals simp [h2']

/-- After an assignment, looking the assigned key up yields the new value. -/
theorem lookup_dictSet_self (d : Dict) (k : String) (v : Value) :
    (dictSet d k v).lookup k = some v := by
  rw [dictSet]
  by_cases hs : (d.lookup k).isSome = true
  · rw [if_pos hs, lookup_replaceAll]
    obtain ⟨w, hw⟩ := Option.isSome_iff_exists.mp hs
    rw [hw]
    simp
  · rw [if_neg hs, lookup_append]
    have h2 : d.lookup k = none := by
      cases hl : d.lookup k
      · rfl
      · rw [hl] at hs; simp at hs
    rw [h2]
    simp [List.lookup]

/-- An assignment leaves lookups of other keys unchanged. -/
theorem lookup_dictSet_ne (d : Dict) (k k2 : String) (v : Value) (hne : ¬ k2 = k) :
    (dictSet d k v).lookup k2 = d.lookup k2 := by
  have hne2 : (k2 == k) = false := by simpa using hne
  rw [dictSet]
  by_cases hs : (d.lookup k).isSome = true
  · rw [if_pos hs, lookup_replaceAll]
    cases d.lookup k2 <;> simp [hne2]
  · rw [if_neg hs, lookup_append]
    cases hl : d.lookup k2
    · simp [List.lookup, hne2]
    · simp

/-- Popping a key makes its lookup miss. -/
theorem lookup_dictPop_self (d : Dict) (k : String) :
    (dictPop d k).lookup k = none := by
  rw [lookup_eq_none_iff]
  intro hmem
  obtain ⟨kv, hkv, hfst⟩ := List.mem_map.mp hmem
  have := List.of_mem_filter hkv
  simp [hfst] at this

/-- Popping one key leaves lookups of other keys unchanged. -/
theorem lookup_dictPop_ne (d : Dict) (k k' : String) (hne : ¬ k' = k) :
    (dictPop d k).lookup k' = d.lookup k' := by
  rw [dictPop]
  induction d with
  | nil => simp
  | cons kv tl ih =>
    obtain ⟨k1, v1⟩ := kv
    rw [List.filter_cons]
    by_cases h1 : k1 = k
    · subst h1
      have h2 : (k' == k1) = false := by simpa using hne
      simp only [beq_self_eq_true, Bool.not_true, Bool.false_eq_true, if_false]
      rw [List.lookup]
      simp only [h2]
      exact ih
    · have h1' : (k1 == k) = false := by simpa using h1
      simp only [h1', Bool.not_false, if_true]
      rw [List.lookup, List.lookup]
      by_cases h2 : k' = k1
      · subst h2
        simp
      · have h2' : (k' == k1) = false := by simpa using h2
        rw [ih]

/-- Folding conditional assignments over entries with fresh distinct keys
appends exactly the entries passing the condition, in order. -/
theorem foldl_dictSet_filter (P : String × Value → Bool) :
    ∀ (l acc : Dict), (∀ kv ∈ l, acc.lookup kv.1 = none) → (l.map Prod.fst).Nodup →
      l.foldl (fun ps kv => if P kv then dictSet ps kv.1 kv.2 else ps) acc =
        acc ++ l.filter P := by
  intro l
  induction l with
  | nil => intro acc _ _; simp
  | cons kv tl ih =>
    intro acc hdisj hnd
    rw [List.foldl_cons]
    have hkv : acc.lookup kv.1 = none := hdisj kv (List.mem_cons_self _ _)
    rw [List.map_cons, List.nodup_cons] at hnd
    cases hP : P kv with
    | false =>
      rw [if_neg (by simp [hP])]
      rw [ih acc (fun kv2 h2 => hdisj kv2 (List.mem_cons_of_mem _ h2)) hnd.2]
      simp [List.filter_cons, hP]
    | true =>
      rw [if_pos (by simp [hP])]
      rw [dictSet_of_lookup_none _ _ _ hkv]
      have hsub : ∀ kv2 ∈ tl, ((acc ++ [(kv.1, kv.2)]) : Dict).lookup kv2.1 = none := by
        intro kv2 h2
        rw [lookup_append, hdisj kv2 (List.mem_cons_of_mem _ h2)]
        have hne : ¬ kv2.1 = kv.1 := by
          intro he
          exact hnd.1 (he ▸ List.mem_map_of_mem Prod.fst h2)
        have hne2 : (kv2.1 == kv.1) = false := by simpa using hne
        simp [List.lookup, hne2]
      rw [ih _ hsub hnd.2]
      simp [List.filter_cons, hP]

/-- Under unique keys, lookup in a filtered dictionary tests the condition
on the entry found in the original dictionary. -/
theorem lookup_filter (P : String × Value → Bool) :
    ∀ (d : Dict) (k : String), (d.map Prod.fst).Nodup →
      (d.filter P).lookup k =
        match d.lookup k with
        | some v => if P (k, v) then some v else none
        | none => none := by
  intro d
  induction d with
  | nil => intro k _; simp [List.lookup]
  | cons kv tl ih =>
    intro k hnd
    rw [List.map_cons, List.nodup_cons] at hnd
    obtain ⟨k1, v1⟩ := kv
    rw [List.filter_cons, List.lookup]
    by_cases hk : k = k1
    · subst hk
      simp only [beq_self_eq_true]
      cases hP : P (k, v1) with
      | true =>
        rw [if_pos (by simp [hP]), List.lookup]
        simp [hP]
      | false =>
        rw [if_neg (by simp [hP])]
        have hnone : ((tl.filter P) : Dict).lookup k = none := by
          rw [lookup_eq_none_iff]
          intro hmem
          obtain ⟨kv2, hkv2, hfst⟩ := List.mem_map.mp hmem
          have hmem2 : kv2 ∈ tl := List.mem_of_mem_filter hkv2
          have hmem3 : kv2.1 ∈ tl.map Prod.fst := List.mem_map_of_mem Prod.fst hmem2
          rw [hfst] at hmem3
          exact hnd.1 hmem3
        rw [hnone]
        simp [hP]
    · have hk2 : (k == k1) = false := by simpa using hk
      simp only [hk2]
      cases hP : P (k1, v1) with
      | true =>
        rw [if_pos (by simp [hP]), List.lookup]
        simp only [hk2]
        exact ih k hnd.2
      | false =>
        rw [if_neg (by simp [hP])]
        exact ih k hnd.2

/-- The inclusion test of the generic update diff, as a predicate on a
single entry: truthy desired value, key present in the existing record, and
a value that differs under Python equality. -/
def diffCond (existing : Dict) (kv : String × Value) : Bool :=
  pyTruthy kv.2 &&
    (match existing.lookup kv.1 with
     | some w => !(Value.beq w kv.2)
     | none => false)

/-- The loop body of the generic diff is the conditional assignment guarded
by `diffCond`. -/
theorem update_diff_step (existing : Dict) :
    (fun (ps : Dict) (kv : String × Value) =>
        if pyTruthy kv.2 then
          match existing.lookup kv.1 with
          | some w => if Value.beq w kv.2 then ps else dictSet ps kv.1 kv.2
          | none => ps
        else ps) =
      fun ps kv => if diffCond existing kv then dictSet ps kv.1 kv.2 else ps := by
  funext ps kv
  rw [diffCond]
  cases ht : pyTruthy kv.2 with
  | false => simp [ht]
  | true =>
    cases hl : existing.lookup kv.1 with
    | none => simp [ht, hl]
    | some w =>
      cases hb : Value.beq w kv.2 with
      | true => simp [ht, hl, hb]
      | false => simp [ht, hl, hb]

/-- The generic diff equals the `actionid` entry followed by the entries of
`data` passing `diffCond`, provided `data` has unique keys, none of them
`actionid`. -/
theorem update_diff_eq (existing : Dict) (aid : Value) (data : Dict)
    (hnd : (data.map Prod.fst).Nodup) (hid : data.lookup "actionid" = none) :
    update_diff existing aid data =
      ("actionid", aid) :: data.filter (diffCond existing) := by
  have hdisj : ∀ kv ∈ data, ([(("actionid" : String), aid)] : Dict).lookup kv.1 = none := by
    intro kv hkv
    rw [lookup_eq_none_iff] at hid
    have hne : ¬ kv.1 = "actionid" := by
      intro he
      exact hid (he ▸ List.mem_map_of_mem Prod.fst hkv)
    have hne2 : (kv.1 == "actionid") = false := by simpa using hne
    simp [List.lookup, hne2]
  rw [update_diff, update_diff_step,
    foldl_dictSet_filter (diffCond existing) data _ hdisj hnd]
  simp

/-- The create payload of `add_action` is exactly the truthy entries of
`data`, in order, when `data` has unique keys. -/
theorem add_parameters_eq (data : Dict) (hnd : (data.map Prod.fst).Nodup) :
    data.foldl (fun ps kv => if pyTruthy kv.2 then dictSet ps kv.1 kv.2 else ps) [] =
      data.filter (fun kv => pyTruthy kv.2) := by
  have h := foldl_dictSet_filter (fun kv => pyTruthy kv.2) data []
    (by intro kv _; simp [List.lookup]) hnd
  simpa using h

/-- The keys of the desired-state dictionary built by `main`. -/
theorem mainData_keys (p : Params) :
    (mainData p).map Prod.fst = ["name", "status", "esc_period", "eventsource", "operations"] := by
  simp [mainData]

/-- The desired-state dictionary built by `main` has unique keys. -/
theorem mainData_keys_nodup (p : Params) : ((mainData p).map Prod.fst).Nodup := by
  rw [mainData_keys]
  decide

/-- The desired-state dictionary built by `main` has no `actionid` key. -/
theorem mainData_lookup_actionid (p : Params) : (mainData p).lookup "actionid" = none := by
  simp [mainData, List.lookup]

/-- The desired-state dictionary built by `main` has no `interface` key. -/
theorem mainData_lookup_interface (p : Params) : (mainData p).lookup "interface" = none := by
  simp [mainData, List.lookup]

/-- The desired-state dictionary built by `main` has no `host` key. -/
theorem mainData_lookup_host (p : Params) : (mainData p).lookup "host" = none := by
  simp [mainData, List.lookup]

/-- The `name` entry of the desired-state dictionary built by `main`. -/
theorem mainData_lookup_name (p : Params) :
    (mainData p).lookup "name" = some (Value.str p.action_name) := by
  simp [mainData, List.lookup]

/-- The `status` entry of the desired-state dictionary built by `main`. -/
theorem mainData_lookup_status (p : Params) :
    (mainData p).lookup "status" = some (Value.str (toString (statusCode p.status))) := by
  simp [mainData, List.lookup]

/-- On the desired-state dictionary built by `main` (which never carries an
`interface` key), the update payload is defined and equals the `actionid`
entry followed by the diffed fields. -/
theorem update_parameters_mainData (existing : Dict) (aid : Value) (p : Params) :
    update_parameters existing aid (mainData p) =
      some (("actionid", aid) :: (mainData p).filter (diffCond existing)) := by
  have hdiff := update_diff_eq existing aid (mainData p) (mainData_keys_nodup p)
    (mainData_lookup_actionid p)
  have hint : ((("actionid", aid) :: (mainData p).filter (diffCond existing)) : Dict).lookup
      "interface" = none := by
    rw [List.lookup]
    have h1 : (("interface" : String) == "actionid") = false := by decide
    simp only [h1]
    rw [lookup_filter (diffCond existing) (mainData p) "interface" (mainData_keys_nodup p),
      mainData_lookup_interface]
  simp only [update_parameters]
  rw [hdiff, hint, mainData_lookup_interface]
  simp

/-- The create call issued by a non-check `add_action` always carries the
truthy-filtered payload, whether or not the remote call raises. -/
theorem add_action_calls (c : Option String) (data : Dict) :
    (add_action false c data).2 =
      [RemoteCall.create (data.foldl
        (fun ps kv => if pyTruthy kv.2 then dictSet ps kv.1 kv.2 else ps) [])] := by
  rw [add_action]
  cases c with
  | some e => cases data.lookup "name" <;> simp
  | none =>
    cases data.lookup "name" with
    | none => simp
    | some nm => cases data.lookup "status" <;> simp

/-- The delete call issued by a non-check `delete_action` always carries the
singleton identifier list, whether or not the remote call raises. -/
theorem delete_action_calls (d : Option String) (aid : Value) (nm : String) :
    (delete_action false d aid nm).2 = [RemoteCall.delete [aid]] := by
  rw [delete_action.eq_def]
  cases d <;> simp

/-- When `data` has no `host` key, the `except` handler of `update_action`
itself raises `KeyError`. -/
theorem update_fail_no_host (data : Dict) (e : String) (h : data.lookup "host" = none) :
    update_fail data e = Outcome.crash keyErrorHost := by
  rw [update_fail.eq_def, h]

/-- C2: in a non-check invocation on the desired-state dictionary built by
`main` (whose keys are exactly name, status, esc_period, eventsource and
operations — never `host`), whenever the update payload carries at least one
key besides `actionid`, the remote update call is issued and the invocation
ends in the uncaught `KeyError` on `data['host']` — whether the remote call
succeeds or raises — so `update_action` never reports a successful update
for payloads built by `main`. -/
theorem claim_update_host_keyerror (p : Params) (u : Option String)
    (existing : Dict) (aid : Value)
    (hdiffs : 0 < (((mainData p).filter (diffCond existing)) : Dict).length) :
    update_action false u (some existing) aid (mainData p) =
      (Outcome.crash keyErrorHost,
       [RemoteCall.update (("actionid", aid) :: (mainData p).filter (diffCond existing))]) := by
  have hlen : 1 < ((("actionid", aid) :: (mainData p).filter (diffCond existing)) : Dict).length := by
    simp only [List.length_cons]
    omega
  rw [update_action.eq_def]
  simp only [Bool.false_eq_true, if_false]
  rw [update_parameters_mainData]
  simp only [hlen, if_true, if_pos]
  cases u with
  | some e =>
    simp [update_fail_no_host (mainData p) e (mainData_lookup_host p)]
  | none =>
    simp [mainData_lookup_host]

/-- C2 witness: a concrete five-field desired state whose `status` differs
from the fetched record; the update call is issued, then the invocation
crashes on `KeyError` instead of reporting success. -/
theorem claim_update_host_keyerror_witness :
    update_action false none
      (some [("actionid", Value.str "7"), ("name", Value.str "A"), ("status", Value.str "0"),
             ("esc_period", Value.str "2m"), ("eventsource", Value.int 1),
             ("operations", Value.list [Value.str "op"])])
      (Value.str "7") (mainData ⟨"A", "active", "present", "2m", 1, [Value.str "op"]⟩) =
      (Outcome.crash keyErrorHost,
       [RemoteCall.update [("actionid", Value.str "7"), ("status", Value.str "5")]]) :=
  (claim_update_host_keyerror ⟨"A", "active", "present", "2m", 1, [Value.str "op"]⟩ none
      _ (Value.str "7")
      (by
        simp [mainData, statusCode, diffCond, pyTruthy, List.filter, List.lookup,
          Value.beq, Value.beqDictAux]
        all_goals decide)).trans
    (by
      simp [mainData, statusCode, diffCond, pyTruthy, List.filter, List.lookup,
        Value.beq, Value.beqDictAux]
      all_goals rfl)

/-- C9: for a falsy (not-found) lookup with desired state present, the
dispatch reaches `add_action`, whose create payload contains exactly the
truthy-valued entries of the five-field desired dictionary, and no other
keys. -/
theorem claim_create_payload_exact (p : Params) (g : List Dict) (c : Option String)
    (hnf : pyTruthy (action_exists g).1 = false) (hpres : ¬ p.state = "absent") :
    (main_dispatch false g c none none p).2 =
      [RemoteCall.create ((mainData p).filter (fun kv => pyTruthy kv.2))] ∧
    (∀ f v, (((mainData p).filter (fun kv => pyTruthy kv.2)) : Dict).lookup f = some v ↔
      ((mainData p).lookup f = some v ∧ pyTruthy v = true)) := by
  constructor
  · have habs : (p.state == "absent") = false := by simpa using hpres
    simp only [main_dispatch, hnf, Bool.false_eq_true, if_false, habs]
    rw [add_action_calls, add_parameters_eq (mainData p) (mainData_keys_nodup p)]
  · intro f v
    rw [lookup_filter (fun kv => pyTruthy kv.2) (mainData p) f (mainData_keys_nodup p)]
    cases hl : (mainData p).lookup f with
    | none => simp
    | some v0 =>
      cases ht : pyTruthy v0 with
      | true =>
        simp only [ht, if_true, if_pos, Option.some.injEq]
        constructor
        · intro h1
          exact ⟨h1, h1 ▸ ht⟩
        · intro h1
          exact h1.1
      | false =>
        simp only [ht, Bool.false_eq_true, if_false]
        constructor
        · intro h1
          exact absurd h1 (by simp)
        · intro h1
          obtain ⟨h2, h3⟩ := h1
          injection h2 with h4
          subst h4
          simp [ht] at h3

/-- C9 witness: with an empty lookup result and state present, the create
payload of the concrete invocation drops exactly the falsy fields
(eventsource 0, empty operations). -/
theorem claim_create_payload_exact_witness :
    (main_dispatch false [] (some "boom") none none
        ⟨"A", "active", "present", "2m", 0, []⟩).2 =
      [RemoteCall.create [("name", Value.str "A"), ("status", Value.str "5"),
        ("esc_period", Value.str "2m")]] :=
  ((claim_create_payload_exact ⟨"A", "active", "present", "2m", 0, []⟩ [] (some "boom")
      rfl (by decide)).1).trans (by rfl)

/-- C8: with desired state absent, a falsy lookup result makes the module
exit unchanged with no remote mutating call, while a fetched first record
carrying a truthy `actionid` makes the dispatch issue exactly one delete
call with the fetched identifier, regardless of how any other field
compares. -/
theorem claim_absent_dispatch (g : List Dict) (p : Params) (c u d : Option String)
    (habs : p.state = "absent") :
    (pyTruthy (action_exists g).1 = false →
      main_dispatch false g c u d p = (Outcome.exitOk false none, [])) ∧
    (∀ r rs idv, g = r :: rs → r.lookup "actionid" = some idv → pyTruthy idv = true →
      (main_dispatch false g c u d p).2 = [RemoteCall.delete [idv]]) := by
  have habs2 : (p.state == "absent") = true := by simpa using habs
  constructor
  · intro hnf
    simp only [main_dispatch, hnf, Bool.false_eq_true, if_false, habs2, if_true]
  · intro r rs idv hg hid ht
    subst hg
    have hae : action_exists (r :: rs) = (idv, some r) := by
      rw [action_exists, hid]
    simp only [main_dispatch, hae, ht, if_true, habs2]
    exact delete_action_calls d idv p.action_name

/-- C8 witness: a found record with identifier 7 and state absent yields
exactly one delete call with that identifier even though the other fields
disagree with the desired state. -/
theorem claim_absent_dispatch_witness :
    (main_dispatch false [[("actionid", Value.str "7"), ("name", Value.str "B")]]
        none none none ⟨"A", "active", "absent", "2m", 1, []⟩).2 =
      [RemoteCall.delete [Value.str "7"]] :=
  (claim_absent_dispatch [[("actionid", Value.str "7"), ("name", Value.str "B")]]
      ⟨"A", "active", "absent", "2m", 1, []⟩ none none none rfl).2
    [("actionid", Value.str "7"), ("name", Value.str "B")] [] (Value.str "7") rfl rfl rfl

/-- C5: over the five desired fields built by `main`, the update payload
contains a field with value `v` exactly when the desired value is `v` and
truthy, the field key exists in the fetched record, and the desired value
differs from the existing one under Python equality — so falsy-valued and
unchanged fields never appear. -/
theorem claim_update_diff_membership (existing : Dict) (aid : Value) (p : Params)
    (f : String) (v : Value)
    (hf : f ∈ (["name", "status", "esc_period", "eventsource", "operations"] : List String)) :
    (((update_parameters existing aid (mainData p)).getD []) : Dict).lookup f = some v ↔
      ((mainData p).lookup f = some v ∧ pyTruthy v = true ∧
        ∃ w, existing.lookup f = some w ∧ Value.beq w v = false) := by
  rw [update_parameters_mainData]
  simp only [Option.getD_some]
  have hfne : ¬ f = "actionid" := by
    intro he
    subst he
    simp at hf
  have hfne2 : (f == "actionid") = false := by simpa using hfne
  rw [List.lookup]
  simp only [hfne2]
  rw [lookup_filter (diffCond existing) (mainData p) f (mainData_keys_nodup p)]
  cases hl : (mainData p).lookup f with
  | none => simp
  | some v0 =>
    simp only [diffCond]
    split
    · rename_i hcond
      rw [Bool.and_eq_true] at hcond
      obtain ⟨ht, hm⟩ := hcond
      cases hw : existing.lookup f with
      | none =>
        rw [hw] at hm
        simp at hm
      | some w0 =>
        rw [hw] at hm
        have hb : Value.beq w0 v0 = false := by simpa using hm
        constructor
        · intro h1
          injection h1 with h4
          subst h4
          exact ⟨rfl, ht, w0, rfl, hb⟩
        · intro h1
          exact h1.1
    · rename_i hcond
      simp only [Bool.not_eq_true] at hcond
      constructor
      · intro h1
        exact absurd h1 (by simp)
      · intro h1
        obtain ⟨h2, h3, w, h5, h6⟩ := h1
        injection h2 with h4
        subst h4
        rw [h5] at hcond
        simp [h3, h6] at hcond

/-- C5 witness: for the concrete desired status "5" against an existing
record with status "0", the payload carries the status field. -/
theorem claim_update_diff_membership_witness :
    (((update_parameters [("status", Value.str "0")] (Value.str "7")
        (mainData ⟨"A", "active", "present", "2m", 1, []⟩)).getD []) : Dict).lookup "status" =
      some (Value.str "5") :=
  (claim_update_diff_membership [("status", Value.str "0")] (Value.str "7")
      ⟨"A", "active", "present", "2m", 1, []⟩ "status" (Value.str "5") (by decide)).mpr
    ⟨by rfl, by rfl, Value.str "0", by rfl, by simp [Value.beq]⟩

/-- C6 at the failing input: with no differing field the payload is only
`actionid`, no update call is issued and the module reports changed=false;
with one differing field exactly one update call with the full payload is
issued, but the module then ends in the uncaught `KeyError` on `data['host']`
instead of reporting changed=true. -/
theorem claim_update_report_bug :
    update_action false none
        (some [("actionid", Value.str "7"), ("name", Value.str "A"),
               ("status", Value.str "5"), ("esc_period", Value.str "2m"),
               ("eventsource", Value.int 1), ("operations", Value.list [Value.str "op"])])
        (Value.str "7") (mainData ⟨"A", "active", "present", "2m", 1, [Value.str "op"]⟩) =
      (Outcome.exitOk false none, []) ∧
    update_action false none
        (some [("actionid", Value.str "7"), ("name", Value.str "A"),
               ("status", Value.str "0"), ("esc_period", Value.str "2m"),
               ("eventsource", Value.int 1), ("operations", Value.list [Value.str "op"])])
        (Value.str "7") (mainData ⟨"A", "active", "present", "2m", 1, [Value.str "op"]⟩) =
      (Outcome.crash keyErrorHost,
       [RemoteCall.update [("actionid", Value.str "7"), ("status", Value.str "5")]]) := by
  have hmd : mainData ⟨"A", "active", "present", "2m", 1, [Value.str "op"]⟩ =
      [("name", Value.str "A"), ("status", Value.str "5"), ("esc_period", Value.str "2m"),
       ("eventsource", Value.int 1), ("operations", Value.list [Value.str "op"])] := rfl
  constructor <;>
    simp [hmd, update_action, update_parameters, update_diff, diffCond, pyTruthy,
      List.lookup, Value.beq, Value.beqDictAux, dictSet, dictPop, update_fail,
      List.filter, keyErrorHost]

/-- C10 at the failing input: when the remote create or delete call raises,
the module fails fatally with a message carrying the entity name and the
error text, and no further mutating call is made; but when the remote update
call raises, the `except` handler itself raises `KeyError` on `data['host']`
(absent from every payload `main` builds), so the invocation crashes with no
fatal failure message naming the entity. -/
theorem claim_remote_error_surface :
    add_action false (some "boom")
        (mainData ⟨"A", "active", "present", "2m", 1, [Value.str "op"]⟩) =
      (Outcome.fail "Failed to create action A: boom",
       [RemoteCall.create [("name", Value.str "A"), ("status", Value.str "5"),
         ("esc_period", Value.str "2m"), ("eventsource", Value.int 1),
         ("operations", Value.list [Value.str "op"])]]) ∧
    delete_action false (some "boom") (Value.str "7") "A" =
      (Outcome.fail "Failed to delete action A: boom", [RemoteCall.delete [Value.str "7"]]) ∧
    update_action false (some "boom")
        (some [("actionid", Value.str "7"), ("name", Value.str "A"),
               ("status", Value.str "0"), ("esc_period", Value.str "2m"),
               ("eventsource", Value.int 1), ("operations", Value.list [Value.str "op"])])
        (Value.str "7") (mainData ⟨"A", "active", "present", "2m", 1, [Value.str "op"]⟩) =
      (Outcome.crash keyErrorHost,
       [RemoteCall.update [("actionid", Value.str "7"), ("status", Value.str "5")]]) := by
  have hmd : mainData ⟨"A", "active", "present", "2m", 1, [Value.str "op"]⟩ =
      [("name", Value.str "A"), ("status", Value.str "5"), ("esc_period", Value.str "2m"),
       ("eventsource", Value.int 1), ("operations", Value.list [Value.str "op"])] := rfl
  refine ⟨?_, ?_, ?_⟩ <;>
    simp [hmd, add_action, delete_action, update_action, update_parameters, update_diff,
      diffCond, pyTruthy, List.lookup, Value.beq, Value.beqDictAux, dictSet, dictPop,
      update_fail, List.filter, keyErrorHost, Value.pystr]

/-- In check mode `add_action` exits with changed=true before any remote
call. -/
theorem add_action_check (c : Option String) (data : Dict) :
    add_action true c data = (Outcome.exitOk true none, []) := rfl

/-- In check mode `delete_action` exits with changed=true before any remote
call. -/
theorem delete_action_check (d : Option String) (aid : Value) (nm : String) :
    delete_action true d aid nm = (Outcome.exitOk true none, []) := rfl

/-- In check mode `update_action` exits with changed=true before computing
the payload. -/
theorem update_action_check (u : Option String) (e : Option Dict) (aid : Value) (data : Dict) :
    update_action true u e aid data = (Outcome.exitOk true none, []) := rfl

/-- Outcome of a successful non-check `add_action` on a payload that carries
`name` and `status`: changed=true with the success message. -/
theorem add_action_ok (data : Dict) (nm st : Value)
    (h1 : data.lookup "name" = some nm) (h2 : data.lookup "status" = some st) :
    (add_action false none data).1 =
      Outcome.exitOk true (some ("Successfully added action " ++ Value.pystr nm ++
        " (" ++ Value.pystr st ++ ")")) := by
  rw [add_action]
  simp [h1, h2]

/-- Outcome of a successful non-check `delete_action`: changed=true with the
success message and one delete call. -/
theorem delete_action_ok (aid : Value) (nm : String) :
    delete_action false none aid nm =
      (Outcome.exitOk true (some ("Successfully deleted action " ++ nm)),
       [RemoteCall.delete [aid]]) := by
  rw [delete_action.eq_def]
  simp

/-- C1 counterexample: for a fetched record equal to the desired state, the
dry-run invocation reports changed=true while the same invocation without
dry-run reports changed=false, so the claimed equality of reported outcomes
fails. -/
theorem claim_checkmode_counterexample :
    (main_dispatch true
        [[("actionid", Value.str "7"), ("name", Value.str "A"), ("status", Value.str "5"),
          ("esc_period", Value.str "2m"), ("eventsource", Value.int 1),
          ("operations", Value.list [Value.str "op"])]]
        none none none ⟨"A", "active", "present", "2m", 1, [Value.str "op"]⟩).1 =
      Outcome.exitOk true none ∧
    (main_dispatch false
        [[("actionid", Value.str "7"), ("name", Value.str "A"), ("status", Value.str "5"),
          ("esc_period", Value.str "2m"), ("eventsource", Value.int 1),
          ("operations", Value.list [Value.str "op"])]]
        none none none ⟨"A", "active", "present", "2m", 1, [Value.str "op"]⟩).1 =
      Outcome.exitOk false none ∧
    ¬ Outcome.exitOk true (none : Option String) = Outcome.exitOk false none := by
  have hmd : mainData ⟨"A", "active", "present", "2m", 1, [Value.str "op"]⟩ =
      [("name", Value.str "A"), ("status", Value.str "5"), ("esc_period", Value.str "2m"),
       ("eventsource", Value.int 1), ("operations", Value.list [Value.str "op"])] := rfl
  refine ⟨?_, ?_, by simp⟩ <;>
    simp [main_dispatch, action_exists, hmd, update_action, update_parameters, update_diff,
      diffCond, pyTruthy, List.lookup, Value.beq, Value.beqDictAux, dictSet, dictPop,
      update_fail, List.filter]

/-- C1 amended: with dry-run set, no remote mutating call is ever issued; in
the not-found combinations and in the found-and-absent combination the
reported changed flag equals the one of the same invocation without dry-run
(with succeeding remote calls); but in the found-and-present combination the
dry-run always reports changed=true, which the counterexample shows can
differ from the non-dry-run report. -/
theorem claim_checkmode_amended (g : List Dict) (p : Params) (c u d : Option String) :
    (main_dispatch true g c u d p).2 = [] ∧
    (pyTruthy (action_exists g).1 = false →
      Outcome.changedFlag (main_dispatch true g c u d p).1 =
        Outcome.changedFlag (main_dispatch false g none none none p).1) ∧
    (pyTruthy (action_exists g).1 = true → p.state = "absent" →
      Outcome.changedFlag (main_dispatch true g c u d p).1 =
        Outcome.changedFlag (main_dispatch false g none none none p).1) ∧
    (pyTruthy (action_exists g).1 = true → ¬ p.state = "absent" →
      Outcome.changedFlag (main_dispatch true g c u d p).1 = some true) := by
  refine ⟨?_, ?_, ?_, ?_⟩
  · by_cases ht : pyTruthy (action_exists g).1 = true
    · by_cases hs : (p.state == "absent") = true
      · simp [main_dispatch, ht, hs, delete_action_check]
      · have hs2 : (p.state == "absent") = false := by
          cases hx : (p.state == "absent")
          · rfl
          · exact absurd hx hs
        simp [main_dispatch, ht, hs2, update_action_check]
    · have ht2 : pyTruthy (action_exists g).1 = false := by
        cases hx : pyTruthy (action_exists g).1
        · rfl
        · exact absurd hx ht
      by_cases hs : (p.state == "absent") = true
      · simp [main_dispatch, ht2, hs]
      · have hs2 : (p.state == "absent") = false := by
          cases hx : (p.state == "absent")
          · rfl
          · exact absurd hx hs
        simp [main_dispatch, ht2, hs2, add_action_check]
  · intro hnf
    by_cases hs : (p.state == "absent") = true
    · simp [main_dispatch, hnf, hs]
    · have hs2 : (p.state == "absent") = false := by
        cases hx : (p.state == "absent")
        · rfl
        · exact absurd hx hs
      simp only [main_dispatch, hnf, Bool.false_eq_true, if_false, hs2, add_action_check]
      rw [add_action_ok (mainData p) _ _ (mainData_lookup_name p) (mainData_lookup_status p)]
      rfl
  · intro ht hs
    have hs2 : (p.state == "absent") = true := by simpa using hs
    simp only [main_dispatch, ht, if_true, hs2, delete_action_check]
    rw [delete_action_ok]
    rfl
  · intro ht hs
    have hs2 : (p.state == "absent") = false := by simpa using hs
    simp [main_dispatch, ht, hs2, update_action_check, Outcome.changedFlag]

/-- C1 amended witness: at the counterexample input, dry-run issues no
remote call, and in the found-and-present combination dry-run reports
changed=true. -/
theorem claim_checkmode_amended_witness :
    (main_dispatch true [[("actionid", Value.str "7")]] none none none
        ⟨"A", "active", "present", "2m", 1, []⟩).2 = [] ∧
    Outcome.changedFlag (main_dispatch true [[("actionid", Value.str "7")]] none none none
        ⟨"A", "active", "present", "2m", 1, []⟩).1 = some true :=
  ⟨(claim_checkmode_amended [[("actionid", Value.str "7")]]
      ⟨"A", "active", "present", "2m", 1, []⟩ none none none).1,
   (claim_checkmode_amended [[("actionid", Value.str "7")]]
      ⟨"A", "active", "present", "2m", 1, []⟩ none none none).2.2.2 rfl (by decide)⟩

/-- C3 counterexample: a non-empty lookup result whose first record lacks
`actionid` is not treated as not-found — with desired state absent the
module issues a delete call (with the raw result list as identifier) and
reports changed=true instead of the claimed no-op. -/
theorem claim_lookup_no_id_counterexample :
    main_dispatch false [[("name", Value.str "A")]] none none none
        ⟨"A", "active", "absent", "2m", 1, []⟩ =
      (Outcome.exitOk true (some "Successfully deleted action A"),
       [RemoteCall.delete [Value.list [Value.dict [("name", Value.str "A")]]]]) := by
  simp [main_dispatch, action_exists, List.lookup, pyTruthy, delete_action]

/-- C3 amended: when the result set is non-empty but its first record lacks
`actionid`, `action_exists` returns the raw non-empty result list, which is
truthy, so dispatch takes the Found branches: with desired state absent it
issues a delete call whose identifier argument is that raw list, and with
desired state present it calls `update_action` with `existing_data` unset. -/
theorem claim_lookup_no_id_amended (r : Dict) (rs : List Dict) (p : Params)
    (u d : Option String) (hid : r.lookup "actionid" = none) :
    pyTruthy (action_exists (r :: rs)).1 = true ∧
    (p.state = "absent" →
      (main_dispatch false (r :: rs) none u d p).2 =
        [RemoteCall.delete [Value.list ((r :: rs).map Value.dict)]]) ∧
    (¬ p.state = "absent" →
      main_dispatch false (r :: rs) none u d p =
        update_action false u none (Value.list ((r :: rs).map Value.dict)) (mainData p)) := by
  have hae : action_exists (r :: rs) = (Value.list ((r :: rs).map Value.dict), none) := by
    rw [action_exists, hid]
  have ht : pyTruthy (action_exists (r :: rs)).1 = true := by
    rw [hae]
    simp [pyTruthy]
  refine ⟨ht, ?_, ?_⟩
  · intro hs
    have hs2 : (p.state == "absent") = true := by simpa using hs
    simp only [main_dispatch, hae, ht, if_true, hs2]
    exact delete_action_calls d _ p.action_name
  · intro hs
    have hs2 : (p.state == "absent") = false := by simpa using hs
    have ht2 : pyTruthy (Value.list (Value.dict r :: List.map Value.dict rs)) = true := by
      simp [pyTruthy]
    simp [main_dispatch, hae, ht2, hs2]

/-- C3 amended witness: with one record lacking `actionid` and state absent,
the dispatch issues the delete call with the raw result list. -/
theorem claim_lookup_no_id_amended_witness :
    (main_dispatch false [[("name", Value.str "A")]] none none (some "boom")
        ⟨"A", "active", "absent", "2m", 1, []⟩).2 =
      [RemoteCall.delete [Value.list [Value.dict [("name", Value.str "A")]]]] :=
  (claim_lookup_no_id_amended [("name", Value.str "A")] []
      ⟨"A", "active", "absent", "2m", 1, []⟩ none (some "boom") rfl).2.1 rfl

/-- Python equality against a string literal holds exactly for that string
value (values of other kinds never compare equal to a string). -/
theorem beq_str_iff (v : Value) (s : String) :
    Value.beq v (Value.str s) = true ↔ v = Value.str s := by
  cases v with
  | str a => simp [Value.beq]
  | int n => simp [Value.beq]
  | list l => cases l <;> simp [Value.beq]
  | dict d => simp [Value.beq]

/-- A payload base (diff with `interface` popped when present) never carries
the `interface` key. -/
theorem base_no_interface (q : Dict) :
    (((if ((q.lookup "interface").isSome) then dictPop q "interface" else q)) : Dict).lookup
      "interface" = none := by
  by_cases hq : (q.lookup "interface").isSome = true
  · rw [if_pos hq]
    exact lookup_dictPop_self q "interface"
  · rw [if_neg hq]
    cases hl : q.lookup "interface"
    · rfl
    · rw [hl] at hq
      simp at hq

/-- C7: an update payload carries `interface` only when the desired status
equals the passive code "6", the desired data carries a dictionary-valued
`interface`, and the merge with the existing interface is non-empty; the key
is always removed from the generic diff result, its value when present is
exactly the merge of the existing interface overlaid by the desired keys
(string-coerced), and it is omitted when the merge is empty — that is, when
the merged result equals the pre-existing interface. -/
theorem claim_interface_special_case (existing : Dict) (aid : Value) (data : Dict) (ps : Dict)
    (h : update_parameters existing aid data = some ps) :
    (∀ m, ps.lookup "interface" = some m →
      data.lookup "status" = some (Value.str "6") ∧
      ∃ ni, data.lookup "interface" = some (Value.dict ni) ∧
        m = Value.dict (compile_interface_params existing ni) ∧
        0 < (compile_interface_params existing ni).length) ∧
    (∀ ni, data.lookup "interface" = some (Value.dict ni) →
      data.lookup "status" = some (Value.str "6") →
      0 < (compile_interface_params existing ni).length →
      ps.lookup "interface" = some (Value.dict (compile_interface_params existing ni))) ∧
    (∀ ni, data.lookup "interface" = some (Value.dict ni) →
      compile_interface_params existing ni = [] →
      ps.lookup "interface" = none) := by
  simp only [update_parameters] at h
  split at h
  · rename_i heq
    injection h with h2
    subst h2
    refine ⟨?_, ?_, ?_⟩
    · intro m hm
      rw [base_no_interface] at hm
      simp at hm
    · intro ni hni
      rw [heq] at hni
      simp at hni
    · intro ni hni _
      rw [heq] at hni
      simp at hni
  · rename_i iv heq
    split at h
    · simp at h
    · rename_i st hst
      split at h
      · rename_i hb
        split at h
        · rename_i ni
          split at h
          · rename_i hlen
            injection h with h2
            subst h2
            have hst6 : st = Value.str "6" := (beq_str_iff st "6").mp hb
            refine ⟨?_, ?_, ?_⟩
            · intro m hm
              rw [lookup_dictSet_self] at hm
              injection hm with h3
              subst h3
              exact ⟨by rw [hst, hst6], ni, heq, rfl, hlen⟩
            · intro ni2 hni2 _ _
              rw [heq] at hni2
              injection hni2 with h3
              injection h3 with h4
              subst h4
              exact lookup_dictSet_self _ _ _
            · intro ni2 hni2 hempty
              rw [heq] at hni2
              injection hni2 with h3
              injection h3 with h4
              subst h4
              rw [hempty] at hlen
              simp at hlen
          · rename_i hlen
            injection h with h2
            subst h2
            refine ⟨?_, ?_, ?_⟩
            · intro m hm
              rw [base_no_interface] at hm
              simp at hm
            · intro ni2 hni2 _ hlen2
              rw [heq] at hni2
              injection hni2 with h3
              injection h3 with h4
              subst h4
              exact absurd hlen2 hlen
            · intro ni2 hni2 hempty
              exact base_no_interface _
        · simp at h
      · rename_i hb
        injection h with h2
        subst h2
        refine ⟨?_, ?_, ?_⟩
        · intro m hm
          rw [base_no_interface] at hm
          simp at hm
        · intro ni2 hni2 hst2 _
          rw [hst] at hst2
          injection hst2 with h3
          subst h3
          exact absurd (by simp [Value.beq]) hb
        · intro ni2 hni2 hempty
          exact base_no_interface _

/-- C7 witness: desired status "6" with a desired `interface` of `port: 102`
against an existing interface `ip: "1.1.1.1"` puts the string-coerced merge
of both under `interface` in the payload. -/
theorem claim_interface_special_case_witness :
    (([("actionid", Value.str "7"),
       ("interface", Value.dict [("ip", Value.str "1.1.1.1"), ("port", Value.str "102")])] :
        Dict)).lookup "interface" =
      some (Value.dict [("ip", Value.str "1.1.1.1"), ("port", Value.str "102")]) :=
  ((claim_interface_special_case
      [("interface", Value.dict [("ip", Value.str "1.1.1.1")])] (Value.str "7")
      [("status", Value.str "6"), ("interface", Value.dict [("port", Value.int 102)])]
      [("actionid", Value.str "7"),
       ("interface", Value.dict [("ip", Value.str "1.1.1.1"), ("port", Value.str "102")])]
      (by
        simp [update_parameters, update_diff, diffCond, compile_interface_params, dictSet,
          dictPop, pyTruthy, List.lookup, Value.beq, Value.beqDictAux, Value.pystr,
          Value.pyrepr, List.filter]
        all_goals rfl)).2.1
    [("port", Value.int 102)] rfl rfl
    (by
      simp [compile_interface_params, dictSet, List.lookup, Value.beq, Value.beqDictAux,
        Value.pystr, Value.pyrepr])).trans
  (by
    simp [compile_interface_params, dictSet, List.lookup, Value.beq, Value.beqDictAux,
      Value.pystr, Value.pyrepr]
    all_goals rfl)

/-- Under unique keys, a member entry is what lookup finds. -/
theorem lookup_of_mem_nodup (d : Dict) (k : String) (v : Value)
    (hnd : (d.map Prod.fst).Nodup) (hm : (k, v) ∈ d) : d.lookup k = some v := by
  induction d with
  | nil => simp at hm
  | cons kv tl ih =>
    rw [List.map_cons, List.nodup_cons] at hnd
    rw [List.lookup]
    rcases List.mem_cons.mp hm with he | hm2
    · rw [← he]
      simp
    · have hne : ¬ k = kv.1 := by
        intro he2
        have h3 : k ∈ tl.map Prod.fst := List.mem_map_of_mem Prod.fst hm2
        rw [he2] at h3
        exact hnd.1 h3
      have hne2 : (k == kv.1) = false := by simpa using hne
      simp only [hne2]
      exact ih hnd.2 hm2

/-- Assigning an entry that is already present (under unique keys) leaves
the dictionary unchanged. -/
theorem dictSet_mem_self (d : Dict) (k : String) (v : Value)
    (hnd : (d.map Prod.fst).Nodup) (hm : (k, v) ∈ d) : dictSet d k v = d := by
  have hl : d.lookup k = some v := lookup_of_mem_nodup d k v hnd hm
  rw [dictSet, if_pos (by simp [hl])]
  have hfix : ∀ kv ∈ d, (if kv.1 == k then ((k, v) : String × Value) else kv) = kv := by
    intro kv hkv
    obtain ⟨k1, v1⟩ := kv
    by_cases hk : k1 = k
    · subst hk
      have h2 : d.lookup k1 = some v1 := lookup_of_mem_nodup d k1 v1 hnd hkv
      rw [hl] at h2
      injection h2 with h3
      subst h3
      simp
    · have hk2 : (k1 == k) = false := by simpa using hk
      simp [hk2]
  calc d.map (fun kv => if kv.1 == k then (k, v) else kv)
      = d.map id := List.map_congr_left hfix
    _ = d := List.map_id d

/-- Overlaying a dictionary with its own entries (under unique keys) leaves
it unchanged. -/
theorem foldl_dictSet_overlay_self (E : Dict) (hnd : (E.map Prod.fst).Nodup) :
    ∀ (l : Dict), (∀ kv ∈ l, kv ∈ E) →
      l.foldl (fun fi kv => dictSet fi kv.1 kv.2) E = E := by
  intro l
  induction l with
  | nil => intro _; simp
  | cons kv tl ih =>
    intro hsub
    rw [List.foldl_cons]
    have h1 : dictSet E kv.1 kv.2 = E := by
      have h2 := hsub kv (List.mem_cons_self _ _)
      exact dictSet_mem_self E kv.1 kv.2 hnd (by simpa using h2)
    rw [h1]
    exact ih (fun kv2 h2 => hsub kv2 (List.mem_cons_of_mem _ h2))

/-- String coercion is the identity on a dictionary whose values are already
strings. -/
theorem stringify_strValued (E : Dict) (hsv : ∀ kv ∈ E, ∃ s, kv.2 = Value.str s) :
    E.map (fun kv => (kv.1, Value.str (Value.pystr kv.2))) = E := by
  have hfix : ∀ kv ∈ E, ((kv.1, Value.str (Value.pystr kv.2)) : String × Value) = kv := by
    intro kv hkv
    obtain ⟨s, hs⟩ := hsv kv hkv
    obtain ⟨k1, v1⟩ := kv
    simp only at hs
    subst hs
    simp [Value.pystr]
  calc E.map (fun kv => (kv.1, Value.str (Value.pystr kv.2)))
      = E.map id := List.map_congr_left hfix
    _ = E := List.map_id E

/-- Python equality is reflexive on dictionaries with unique keys and
string values. -/
theorem beq_dict_self (E : Dict) (hnd : (E.map Prod.fst).Nodup)
    (hsv : ∀ kv ∈ E, ∃ s, kv.2 = Value.str s) :
    Value.beq (Value.dict E) (Value.dict E) = true := by
  have haux : ∀ (l : Dict), (∀ kv ∈ l, kv ∈ E) → Value.beqDictAux l E = true := by
    intro l
    induction l with
    | nil => intro _; simp [Value.beqDictAux]
    | cons kv tl ih =>
      intro hsub
      obtain ⟨k1, v1⟩ := kv
      have hm : (k1, v1) ∈ E := hsub _ (List.mem_cons_self _ _)
      have hl : E.lookup k1 = some v1 := lookup_of_mem_nodup E k1 v1 hnd hm
      obtain ⟨s, hs⟩ := hsv _ hm
      simp only at hs
      subst hs
      rw [Value.beqDictAux, hl]
      simp [Value.beq]
      exact ih (fun kv2 h2 => hsub kv2 (List.mem_cons_of_mem _ h2))
  rw [Value.beq]
  simp only [beq_self_eq_true, Bool.true_and]
  exact haux E (fun kv h => h)

/-- C4 counterexample: merging the empty desired interface into an existing
interface holding a non-string value yields a non-empty result — the string
coercion makes it differ from the untouched existing interface — so the law
"merging an empty desired interface into any existing interface returns the
empty map" fails as stated. -/
theorem claim_interface_merge_counterexample :
    compile_interface_params [("interface", Value.dict [("a", Value.int 1)])] [] =
      [("a", Value.str "1")] ∧
    ¬ compile_interface_params [("interface", Value.dict [("a", Value.int 1)])] [] = [] := by
  have h : compile_interface_params [("interface", Value.dict [("a", Value.int 1)])] [] =
      [("a", Value.str "1")] := by
    simp [compile_interface_params, List.lookup, Value.beq, Value.beqDictAux, Value.pystr,
      Value.pyrepr, dictSet]
    all_goals rfl
  exact ⟨h, by rw [h]; simp⟩

/-- C4 amended: the merge laws hold for existing interfaces whose values are
already strings (as the provider returns them): merging the empty desired
interface into such an existing interface yields the empty map, merging the
existing interface into itself yields the empty map, and merging `a: 1` into
an empty existing interface yields `a: "1"` (string-coerced).  For an
existing interface holding non-string values the first two laws fail (see
the counterexample). -/
theorem claim_interface_merge_amended (E : Dict)
    (hnd : (E.map Prod.fst).Nodup) (hsv : ∀ kv ∈ E, ∃ s, kv.2 = Value.str s) :
    compile_interface_params [("interface", Value.dict E)] [] = [] ∧
    compile_interface_params [("interface", Value.dict E)] E = [] ∧
    compile_interface_params [] [("a", Value.int 1)] = [("a", Value.str "1")] := by
  have h1 : (([(("interface" : String), Value.dict E)]) : Dict).lookup "interface" =
      some (Value.dict E) := by
    simp [List.lookup]
  have hold : (if 0 < E.length then E else []) = E := by
    cases E with
    | nil => simp
    | cons kv tl => simp
  have hbeq := beq_dict_self E hnd hsv
  have hstr := stringify_strValued E hsv
  refine ⟨?_, ?_, ?_⟩
  · simp only [compile_interface_params, h1, hold, List.foldl_nil, hstr]
    rw [if_pos hbeq]
  · simp only [compile_interface_params, h1, hold,
      foldl_dictSet_overlay_self E hnd E (fun kv h => h), hstr]
    rw [if_pos hbeq]
  · simp [compile_interface_params, List.lookup, Value.beq, Value.beqDictAux, Value.pystr,
      Value.pyrepr, dictSet]
    all_goals rfl

/-- C4 witness: for the concrete string-valued existing interface
`ip: "1.1.1.1"`, merging it into itself yields the empty map. -/
theorem claim_interface_merge_amended_witness :
    compile_interface_params [("interface", Value.dict [("ip", Value.str "1.1.1.1")])]
      [("ip", Value.str "1.1.1.1")] = [] :=
  (claim_interface_merge_amended [("ip", Value.str "1.1.1.1")] (by simp)
      (by
        intro kv hkv
        simp only [List.mem_singleton] at hkv
        exact ⟨"1.1.1.1", by rw [hkv]⟩)).2.1
